import Mathlib

/-!
Shallow embedding of the SafeYatri real-time alert engine
(`src/frontend/src/contexts/SocketContext.tsx` and its consumers
`AlertPanel.tsx` / `AlertCard.tsx`).

Modelling conventions:
* JavaScript runtime values of the string-union fields (`type`, `severity`,
  `status`, `system_health`) are plain strings at runtime — the TypeScript
  `as` casts in the source perform no validation — so they are embedded as
  `String`, with validity expressed by separate boolean predicates.
* JS numbers are embedded as `ℚ`.
* A field that may be `undefined` at runtime is `Option _`.
* `x || d` on strings (falsy default: both `undefined` and `""` fall back)
  is `jsOrStr`; `x ?? d` (nullish coalescing) is `Option.getD`.
* The non-deterministic environment reads made by the handlers
  (`Date.now()`/`Math.random()` id generation, `new Date().toISOString()`)
  are passed in as explicit `freshId` / `now` parameters.
* The outbound command functions in the source return `void` and never
  throw; they are embedded with an `Except CmdError` codomain whose error
  channel is never used (every branch is `.ok`), which makes the absence of
  any `LifecycleViolation` / `ChannelUnavailable` signalling explicit.
-/

namespace SafeYatri

/-- `evidence` bundle of an Alert (`SocketContext.tsx` lines 19–23);
`metadata: any` is abstracted to an opaque optional string. -/
structure Evidence where
  video_url : Option String
  image_url : Option String
  metadata : Option String
deriving Repr, DecidableEq

/-- The `location` object stored on an Alert (lines 12–16). -/
structure AlertLocation where
  lat : ℚ
  lng : ℚ
  address : Option String
deriving Repr, DecidableEq

/-- The canonical `Alert` record (lines 6–27). String-union fields are
runtime strings; see the module conventions. -/
structure Alert where
  id : String
  type : String
  severity : String
  confidence : ℚ
  timestamp : String
  location : AlertLocation
  camera_id : Option String
  tourist_ids : List String
  evidence : Option Evidence
  status : String
  assigned_to : Option String
  description : String
deriving Repr, DecidableEq

/-- `TouristLocation` (lines 29–39). -/
structure TouristLocation where
  tourist_id : String
  lat : ℚ
  lng : ℚ
  timestamp : String
  battery_level : Option ℚ
  heart_rate : Option ℚ
  status : String
deriving Repr, DecidableEq

/-- `SystemStatus` (lines 41–47). -/
structure SystemStatus where
  cameras_online : ℚ
  cameras_total : ℚ
  tourists_active : ℚ
  alerts_pending : ℚ
  system_health : String
deriving Repr, DecidableEq

/-- The provider's reactive state: `socket` (modelled by presence only),
`connected`, `alerts`, `touristLocations`, `systemStatus`
(lines 69–79). -/
structure ClientState where
  hasSocket : Bool
  connected : Bool
  alerts : List Alert
  touristLocations : List TouristLocation
  systemStatus : SystemStatus
deriving Repr, DecidableEq

/-- The initial provider state (lines 69–79): no alerts, no locations,
zeroed counters, health `healthy`, disconnected. `hasSocket` is true once
the effect has run `setSocket(newSocket)` (line 214). -/
def initialState : ClientState :=
  { hasSocket := true
    connected := false
    alerts := []
    touristLocations := []
    systemStatus :=
      { cameras_online := 0
        cameras_total := 0
        tourists_active := 0
        alerts_pending := 0
        system_health := "healthy" } }

/-- JS `x || d` for an optional string: `undefined` and `""` are falsy. -/
def jsOrStr (o : Option String) (d : String) : String :=
  match o with
  | none => d
  | some s => if s = "" then d else s

/-- The raw `location` object of an inbound payload, in either the
`{lat,lng}` or `{latitude,longitude}` spelling (lines 104–108, 131–134). -/
structure LocPayload where
  lat : Option ℚ
  lng : Option ℚ
  latitude : Option ℚ
  longitude : Option ℚ
  address : Option String
deriving Repr, DecidableEq

/-- The empty location object `{}` used as fallback (line 97, 124). -/
def emptyLoc : LocPayload :=
  { lat := none, lng := none, latitude := none, longitude := none
    address := none }

/-- Nested `details` of a generic `alert` event payload (line 94). -/
structure AlertDetails where
  confidence : Option ℚ
  severity : Option String
  location : Option LocPayload
  camera_id : Option String
  tourist_ids : Option (List String)
  description : Option String
  evidence : Option Evidence
deriving Repr, DecidableEq

/-- The empty details object `{}` used as fallback (line 96). -/
def emptyDetails : AlertDetails :=
  { confidence := none, severity := none, location := none
    camera_id := none, tourist_ids := none, description := none
    evidence := none }

/-- A generic `alert` event payload: `{ type, details, timestamp }`
(lines 93–94). -/
structure AlertPayload where
  type : Option String
  details : Option AlertDetails
  timestamp : Option String
deriving Repr, DecidableEq

/-- Lines 96–114: map a generic `alert` payload to an Alert.
`freshId` stands for the generated id
`Date.now() + random` (line 99); `now` for `new Date().toISOString()`
(line 103). `??` chains become `Option.getD`, `||` defaults `jsOrStr`;
`typeof details.confidence === 'number' ? ... : 0.8` becomes
`Option.getD (4/5)`. -/
def mapAlertPayload (p : AlertPayload) (freshId now : String) : Alert :=
  let details := p.details.getD emptyDetails
  let loc := details.location.getD emptyLoc
  { id := freshId
    type := jsOrStr p.type "violence"
    severity := jsOrStr details.severity "high"
    confidence := details.confidence.getD (4/5 : ℚ)
    timestamp := jsOrStr p.timestamp now
    location :=
      { lat := loc.lat.getD (loc.latitude.getD 0)
        lng := loc.lng.getD (loc.longitude.getD 0)
        address := loc.address }
    camera_id := details.camera_id
    tourist_ids := details.tourist_ids.getD []
    evidence := details.evidence
    status := "pending"
    assigned_to := none
    description := jsOrStr details.description "Alert received" }

/-- The `alert` event handler (lines 93–119): prepend the mapped Alert
(`setAlerts(prev => [mapped, ...prev])`, line 115). The `try`/`catch`
wraps only total record accesses, so the catch branch is dead in this
model. -/
def handleAlert (s : ClientState) (p : AlertPayload) (freshId now : String) :
    ClientState :=
  { s with alerts := mapAlertPayload p freshId now :: s.alerts }

/-- A `tourist_violence_alert` payload:
`{location, camera_id?, tourist_id, tourist_name?}` (lines 122–137). -/
structure ViolencePayload where
  location : Option LocPayload
  camera_id : Option String
  tourist_id : Option String
  tourist_name : Option String
deriving Repr, DecidableEq

/-- Lines 124–139: map a `tourist_violence_alert` payload to an Alert.
`payload.tourist_id ? [payload.tourist_id] : []` (line 136) is a JS
truthiness test, so an empty-string id also yields `[]`. The description
(line 137) is the template string, `.trim()`-med. -/
def mapViolencePayload (p : ViolencePayload) (freshId now : String) : Alert :=
  let loc := p.location.getD emptyLoc
  { id := freshId
    type := "violence"
    severity := "high"
    confidence := (9/10 : ℚ)
    timestamp := now
    location :=
      { lat := loc.lat.getD (loc.latitude.getD 0)
        lng := loc.lng.getD (loc.longitude.getD 0)
        address := none }
    camera_id := p.camera_id
    tourist_ids :=
      match p.tourist_id with
      | none => []
      | some t => if t = "" then [] else [t]
    evidence := none
    status := "pending"
    assigned_to := none
    description :=
      (String.append "Violence detected near tourist "
        (jsOrStr p.tourist_name "")).trim }

/-- The `tourist_violence_alert` handler (lines 122–144): prepend
(`setAlerts(prev => [mapped, ...prev])`, line 140). -/
def handleTouristViolence (s : ClientState) (p : ViolencePayload)
    (freshId now : String) : ClientState :=
  { s with alerts := mapViolencePayload p freshId now :: s.alerts }

/-- The `connect` handler (lines 146–150): `setConnected(true)`. -/
def handleConnect (s : ClientState) : ClientState :=
  { s with connected := true }

/-- The `disconnect` handler (lines 152–156): `setConnected(false)`. -/
def handleDisconnect (s : ClientState) : ClientState :=
  { s with connected := false }

/-- The `new_alert` handler (lines 159–160): prepend the server record
as-is (`setAlerts(prev => [alert, ...prev])`); the rest of the handler
only raises toasts. -/
def handleNewAlert (s : ClientState) (a : Alert) : ClientState :=
  { s with alerts := a :: s.alerts }

/-- The `alert_updated` handler (lines 180–184): wholesale replacement of
every stored alert whose `id` matches, all others untouched
(`prev.map(alert => alert.id === updatedAlert.id ? updatedAlert : alert)`). -/
def handleAlertUpdated (s : ClientState) (u : Alert) : ClientState :=
  { s with alerts :=
      s.alerts.map (fun a => if a.id = u.id then u else a) }

/-- The `tourist_location_update` handler (lines 187–189): wholesale
replacement of the collection. -/
def handleTouristLocationUpdate (s : ClientState)
    (ls : List TouristLocation) : ClientState :=
  { s with touristLocations := ls }

/-- The `system_status_update` handler (lines 192–194): wholesale
replacement. -/
def handleSystemStatusUpdate (s : ClientState) (st : SystemStatus) :
    ClientState :=
  { s with systemStatus := st }

/-- `Partial<Alert>` — the argument of `sendAlert` (line 55, 222): every
Alert field optional. Carried opaquely by the emitted command. -/
structure AlertPatch where
  id : Option String
  type : Option String
  severity : Option String
  confidence : Option ℚ
  timestamp : Option String
  location : Option AlertLocation
  camera_id : Option String
  tourist_ids : Option (List String)
  evidence : Option Evidence
  status : Option String
  assigned_to : Option String
  description : Option String
deriving Repr, DecidableEq

/-- The four outbound socket emissions (lines 224, 230, 236, 242). -/
inductive OutCommand where
  | sendAlertCmd (alert : AlertPatch)
  | updateAlertStatusCmd (alertId : String) (status : String)
      (assignedTo : Option String)
  | subscribeCameraCmd (cameraId : String)
  | unsubscribeCameraCmd (cameraId : String)
deriving Repr, DecidableEq

/-- The error taxonomy named by the spec for outbound commands. The source
command functions never produce either value — see below. -/
inductive CmdError where
  | lifecycleViolation
  | channelUnavailable
deriving Repr, DecidableEq

/-- `sendAlert` (lines 222–226): emit iff `socket && connected`, else do
nothing. The source body contains no `throw`, so every branch is `.ok`
and the state is returned untouched. -/
def sendAlert (s : ClientState) (alert : AlertPatch) :
    Except CmdError (ClientState × List OutCommand) :=
  if s.hasSocket && s.connected then
    .ok (s, [OutCommand.sendAlertCmd alert])
  else
    .ok (s, [])

/-- `updateAlertStatus` (lines 228–232): emit
`update_alert_status {alertId, status, assignedTo}` iff
`socket && connected`, else do nothing. No lifecycle validation is
performed and no branch throws. -/
def updateAlertStatus (s : ClientState) (alertId status : String)
    (assignedTo : Option String) :
    Except CmdError (ClientState × List OutCommand) :=
  if s.hasSocket && s.connected then
    .ok (s, [OutCommand.updateAlertStatusCmd alertId status assignedTo])
  else
    .ok (s, [])

/-- `subscribeToCamera` (lines 234–238). -/
def subscribeToCamera (s : ClientState) (cameraId : String) :
    Except CmdError (ClientState × List OutCommand) :=
  if s.hasSocket && s.connected then
    .ok (s, [OutCommand.subscribeCameraCmd cameraId])
  else
    .ok (s, [])

/-- `unsubscribeFromCamera` (lines 240–244). -/
def unsubscribeFromCamera (s : ClientState) (cameraId : String) :
    Except CmdError (ClientState × List OutCommand) :=
  if s.hasSocket && s.connected then
    .ok (s, [OutCommand.unsubscribeCameraCmd cameraId])
  else
    .ok (s, [])

/-- The inbound events the provider registers handlers for
(lines 93–212). `iot_band_update` (lines 197–212) only invokes the
outbound `sendAlert` and never mutates the store, so it is represented by
the identity effect on state. -/
inductive InEvent where
  | alertEvt (p : AlertPayload) (freshId now : String)
  | touristViolenceEvt (p : ViolencePayload) (freshId now : String)
  | connectEvt
  | disconnectEvt
  | newAlertEvt (a : Alert)
  | alertUpdatedEvt (u : Alert)
  | locationBatchEvt (ls : List TouristLocation)
  | statusBatchEvt (st : SystemStatus)
  | iotBandEvt
deriving Repr, DecidableEq

/-- Dispatch an inbound event to its handler. -/
def applyEvent (s : ClientState) : InEvent → ClientState
  | .alertEvt p freshId now => handleAlert s p freshId now
  | .touristViolenceEvt p freshId now => handleTouristViolence s p freshId now
  | .connectEvt => handleConnect s
  | .disconnectEvt => handleDisconnect s
  | .newAlertEvt a => handleNewAlert s a
  | .alertUpdatedEvt u => handleAlertUpdated s u
  | .locationBatchEvt ls => handleTouristLocationUpdate s ls
  | .statusBatchEvt st => handleSystemStatusUpdate s st
  | .iotBandEvt => s

/-- Run a sequence of inbound events in arrival order. -/
def runEvents (s : ClientState) (es : List InEvent) : ClientState :=
  es.foldl applyEvent s

/-- The closed `severity` enumeration of the `Alert` interface (line 9). -/
def isValidSeverity (s : String) : Bool :=
  s == "low" || s == "medium" || s == "high" || s == "critical"

/-- The closed `status` enumeration of the `Alert` interface (line 24). -/
def isValidStatus (s : String) : Bool :=
  s == "pending" || s == "reviewing" || s == "dispatched" ||
    s == "resolved" || s == "false_positive"

/-- The statuses the spec calls terminal sinks. -/
def isTerminal (s : String) : Bool :=
  s == "resolved" || s == "false_positive"

/-- The ids currently held in the store. -/
def alertIds (s : ClientState) : List String :=
  s.alerts.map Alert.id

/-- The id an event inserts into the store, if any. -/
def insertedId : InEvent → Option String
  | .alertEvt _ freshId _ => some freshId
  | .touristViolenceEvt _ freshId _ => some freshId
  | .newAlertEvt a => some a.id
  | _ => none

/-- A payload's `severity` detail, when present, is either falsy-empty
(so the default applies) or a member of the closed enumeration. -/
def sevFieldOk (d : AlertDetails) : Prop :=
  ∀ s, d.severity = some s → s = "" ∨ isValidSeverity s = true

/-- A payload's `confidence` detail, when present, lies in `[0,1]`. -/
def confFieldOk (d : AlertDetails) : Prop :=
  ∀ c, d.confidence = some c → 0 ≤ c ∧ c ≤ 1

/-! Concrete fixture values used by counterexamples and witnesses. -/

/-- A fully concrete pending Alert. -/
def alertA : Alert :=
  { id := "a1"
    type := "violence"
    severity := "high"
    confidence := (9/10 : ℚ)
    timestamp := "2025-01-01T00:00:00Z"
    location := { lat := 0, lng := 0, address := none }
    camera_id := none
    tourist_ids := []
    evidence := none
    status := "pending"
    assigned_to := none
    description := "fixture" }

/-- A second Alert with a distinct id. -/
def alertB : Alert := { alertA with id := "b1", description := "fixture b" }

/-- `alertA` after reaching the terminal `resolved` status. -/
def alertResolved : Alert := { alertA with status := "resolved" }

/-- A server record with `alertA`'s id but a non-terminal status. -/
def alertRegressed : Alert :=
  { alertA with status := "pending", description := "server push" }

/-- A replacement record sharing `alertA`'s id. -/
def alertAv2 : Alert :=
  { alertA with
    severity := "critical"
    status := "dispatched"
    assigned_to := some "off_002"
    description := "authoritative" }

/-- An `AlertPatch` with every field absent. -/
def emptyPatch : AlertPatch :=
  { id := none, type := none, severity := none, confidence := none,
    timestamp := none, location := none, camera_id := none,
    tourist_ids := none, evidence := none, status := none,
    assigned_to := none, description := none }

/-- A connected state holding the single pending alert `alertA`. -/
def connectedPendingState : ClientState :=
  { initialState with connected := true, alerts := [alertA] }

/-- A connected state holding `alertA` and `alertB`. -/
def twoAlertState : ClientState :=
  { initialState with connected := true, alerts := [alertA, alertB] }

/-- A state holding one resolved (terminal) alert. -/
def resolvedState : ClientState :=
  { initialState with alerts := [alertResolved] }

/-- A concrete `tourist_violence_alert` payload. -/
def violencePayload1 : ViolencePayload :=
  { location := some { emptyLoc with
      lat := some (2865/100 : ℚ)
      lng := some (7723/100 : ℚ) },
    camera_id := some "cam_001",
    tourist_id := some "T1",
    tourist_name := some "Asha" }

/-- A detection payload supplying an out-of-enumeration severity and an
out-of-range confidence. -/
def badPayload : AlertPayload :=
  { type := none,
    details := some { emptyDetails with
      severity := some "urgent"
      confidence := some (2 : ℚ) },
    timestamp := none }

/-- A detection payload omitting every optional field that has a default,
with the location given in the `{latitude,longitude}` spelling. -/
def defaultedPayload : AlertPayload :=
  { type := none,
    details := some { emptyDetails with
      location := some { emptyLoc with
        latitude := some (5 : ℚ)
        longitude := some (7 : ℚ) } },
    timestamp := some "2025-01-02T00:00:00Z" }

/-! ## Claims -/

/-- C5 counterexample: the wearable/violence handler
(`tourist_violence_alert`, lines 122–144) produces an Alert of
`type = "violence"`, not `type = "panic"`, on a fully concrete payload. -/
theorem mapViolencePayload_type_not_panic :
    (mapViolencePayload violencePayload1 "id1" "ts1").type = "violence" ∧
    ¬ (mapViolencePayload violencePayload1 "id1" "ts1").type = "panic" := by
  exact ⟨rfl, by decide⟩

/-- C5 amended: for every wearable-panic (`tourist_violence_alert`)
envelope, the Alert created by the Normalizer has `type = violence`
(not `panic`), `severity = high`, and `status = pending`. -/
theorem mapViolencePayload_fixed_fields (p : ViolencePayload)
    (freshId now : String) :
    (mapViolencePayload p freshId now).type = "violence" ∧
    (mapViolencePayload p freshId now).severity = "high" ∧
    (mapViolencePayload p freshId now).status = "pending" :=
  ⟨rfl, rfl, rfl⟩

/-- C7: every detection-kind (`alert`) envelope yields exactly one new
Alert, with `status = pending` and each omitted optional field defaulted:
`type → violence`, `severity → high`, `confidence → 0.8`,
`description → "Alert received"`; the location is read in either the
`{lat,lng}` or the `{latitude,longitude}` spelling. -/
theorem handleAlert_defaults (s : ClientState) (p : AlertPayload)
    (freshId now : String) :
    (handleAlert s p freshId now).alerts.length = s.alerts.length + 1 ∧
    (handleAlert s p freshId now).alerts.head? =
      some (mapAlertPayload p freshId now) ∧
    (mapAlertPayload p freshId now).status = "pending" ∧
    (p.type = none → (mapAlertPayload p freshId now).type = "violence") ∧
    ((p.details.getD emptyDetails).severity = none →
      (mapAlertPayload p freshId now).severity = "high") ∧
    ((p.details.getD emptyDetails).confidence = none →
      (mapAlertPayload p freshId now).confidence = (4/5 : ℚ)) ∧
    ((p.details.getD emptyDetails).description = none →
      (mapAlertPayload p freshId now).description = "Alert received") ∧
    (∀ l x, (p.details.getD emptyDetails).location = some l →
      l.lat = some x → (mapAlertPayload p freshId now).location.lat = x) ∧
    (∀ l y, (p.details.getD emptyDetails).location = some l →
      l.lat = none → l.latitude = some y →
      (mapAlertPayload p freshId now).location.lat = y) ∧
    (∀ l x, (p.details.getD emptyDetails).location = some l →
      l.lng = some x → (mapAlertPayload p freshId now).location.lng = x) ∧
    (∀ l y, (p.details.getD emptyDetails).location = some l →
      l.lng = none → l.longitude = some y →
      (mapAlertPayload p freshId now).location.lng = y) := by
  refine ⟨by simp [handleAlert], rfl, rfl, ?_, ?_, ?_, ?_, ?_, ?_, ?_, ?_⟩
  · intro h; simp [mapAlertPayload, jsOrStr, h]
  · intro h; simp [mapAlertPayload, jsOrStr, h]
  · intro h; simp [mapAlertPayload, h]
  · intro h; simp [mapAlertPayload, jsOrStr, h]
  · intro l x hl hx; simp [mapAlertPayload, hl, hx]
  · intro l y hl hx hy; simp [mapAlertPayload, hl, hx, hy]
  · intro l x hl hx; simp [mapAlertPayload, hl, hx]
  · intro l y hl hx hy; simp [mapAlertPayload, hl, hx, hy]

/-- C7 witness: the defaults and the `{latitude,longitude}` spelling on a
concrete fully-defaulted payload. -/
theorem handleAlert_defaults_witness :
    (handleAlert initialState defaultedPayload "f1" "n1").alerts.length =
      0 + 1 ∧
    (mapAlertPayload defaultedPayload "f1" "n1").status = "pending" ∧
    (mapAlertPayload defaultedPayload "f1" "n1").type = "violence" ∧
    (mapAlertPayload defaultedPayload "f1" "n1").severity = "high" ∧
    (mapAlertPayload defaultedPayload "f1" "n1").confidence = (4/5 : ℚ) ∧
    (mapAlertPayload defaultedPayload "f1" "n1").description =
      "Alert received" ∧
    (mapAlertPayload defaultedPayload "f1" "n1").location.lat = (5 : ℚ) ∧
    (mapAlertPayload defaultedPayload "f1" "n1").location.lng = (7 : ℚ) := by
  have h := handleAlert_defaults initialState defaultedPayload "f1" "n1"
  obtain ⟨h1, _, h3, h4, h5, h6, h7, _, h9, _, h11⟩ := h
  refine ⟨by simpa [initialState] using h1, h3, h4 rfl, h5 rfl, h6 rfl,
    h7 rfl, ?_, ?_⟩
  · exact h9 _ 5 rfl rfl rfl
  · exact h11 _ 7 rfl rfl rfl

/-- C8: every accepted alert-creating event (generic `alert`,
`tourist_violence_alert`, server `new_alert`) prepends the new Alert to
the front of the store's sequence and preserves the pre-existing sequence
unchanged as the tail; no reordering of any kind is performed. -/
theorem alerts_prepend_arrival_order (s : ClientState) (p : AlertPayload)
    (vp : ViolencePayload) (a : Alert) (freshId now : String) :
    ((handleAlert s p freshId now).alerts.head? =
        some (mapAlertPayload p freshId now) ∧
      (handleAlert s p freshId now).alerts.tail = s.alerts) ∧
    ((handleTouristViolence s vp freshId now).alerts.head? =
        some (mapViolencePayload vp freshId now) ∧
      (handleTouristViolence s vp freshId now).alerts.tail = s.alerts) ∧
    ((handleNewAlert s a).alerts.head? = some a ∧
      (handleNewAlert s a).alerts.tail = s.alerts) :=
  ⟨⟨rfl, rfl⟩, ⟨rfl, rfl⟩, ⟨rfl, rfl⟩⟩

/-- C10: invoking any outbound command never mutates the local store —
each of the four command functions returns the state it was given
(alerts, tourist locations, system status and connection flag all
unchanged), whether connected or not. -/
theorem outbound_commands_no_local_mutation (s : ClientState)
    (pa : AlertPatch) (alertId status cameraId : String)
    (assignedTo : Option String) :
    (∃ em, sendAlert s pa = Except.ok (s, em)) ∧
    (∃ em, updateAlertStatus s alertId status assignedTo =
      Except.ok (s, em)) ∧
    (∃ em, subscribeToCamera s cameraId = Except.ok (s, em)) ∧
    (∃ em, unsubscribeFromCamera s cameraId = Except.ok (s, em)) := by
  unfold sendAlert updateAlertStatus subscribeToCamera unsubscribeFromCamera
  by_cases h : (s.hasSocket && s.connected) = true <;> simp [h]

/-- C1 counterexample: requesting `resolved` on the connected store whose
only Alert `a1` is `pending` does not fail with `LifecycleViolation` — the
call succeeds, emitting the raw command with no lifecycle validation, and
leaves the state untouched. -/
theorem resolve_on_pending_not_rejected :
    updateAlertStatus connectedPendingState "a1" "resolved" none ≠
      Except.error CmdError.lifecycleViolation ∧
    updateAlertStatus connectedPendingState "a1" "resolved" none =
      Except.ok (connectedPendingState,
        [OutCommand.updateAlertStatusCmd "a1" "resolved" none]) := by
  refine ⟨?_, rfl⟩
  intro h
  simp [updateAlertStatus, connectedPendingState, initialState] at h

/-- C1 amended: `updateAlertStatus` performs no lifecycle validation and
never fails (in particular never with `LifecycleViolation`): every call —
including `resolved` requested on a pending Alert — returns `.ok` with the
state unchanged, emitting the raw command exactly when the channel is
live; the Alert is not mutated locally, so a pending Alert stays
`pending`. -/
theorem updateAlertStatus_never_fails (s : ClientState)
    (alertId status : String) (assignedTo : Option String) :
    (∀ e : CmdError,
      updateAlertStatus s alertId status assignedTo ≠ Except.error e) ∧
    updateAlertStatus s alertId status assignedTo =
      Except.ok (s, if s.hasSocket && s.connected then
        [OutCommand.updateAlertStatusCmd alertId status assignedTo]
        else []) := by
  unfold updateAlertStatus
  by_cases h : (s.hasSocket && s.connected) = true <;> simp [h]

/-- C1 amended, witness: instantiated on the connected pending store with
a `resolved` request. -/
theorem updateAlertStatus_never_fails_witness :
    updateAlertStatus connectedPendingState "a1" "resolved" none ≠
      Except.error CmdError.lifecycleViolation ∧
    (updateAlertStatus connectedPendingState "a1" "resolved" none).isOk =
      true := by
  have h := updateAlertStatus_never_fails connectedPendingState "a1"
    "resolved" none
  refine ⟨h.1 CmdError.lifecycleViolation, ?_⟩
  rw [h.2]; rfl

/-- C3 counterexample: `sendAlert` attempted while disconnected neither
fails with `ChannelUnavailable` nor queues the command — it is silently
dropped: the call succeeds with no emission and no state change. -/
theorem disconnected_sendAlert_silently_dropped :
    sendAlert initialState emptyPatch ≠
      Except.error CmdError.channelUnavailable ∧
    sendAlert initialState emptyPatch = Except.ok (initialState, []) := by
  refine ⟨?_, rfl⟩
  intro h
  simp [sendAlert, initialState] at h

/-- C3 amended: every outbound command attempted while the channel is
disconnected is silently dropped — no error (in particular no
`ChannelUnavailable`) is surfaced, nothing is emitted, nothing is queued,
and the state is unchanged. -/
theorem disconnected_commands_dropped (s : ClientState) (pa : AlertPatch)
    (alertId status cameraId : String) (assignedTo : Option String)
    (hd : s.connected = false) :
    sendAlert s pa = Except.ok (s, []) ∧
    updateAlertStatus s alertId status assignedTo = Except.ok (s, []) ∧
    subscribeToCamera s cameraId = Except.ok (s, []) ∧
    unsubscribeFromCamera s cameraId = Except.ok (s, []) := by
  unfold sendAlert updateAlertStatus subscribeToCamera unsubscribeFromCamera
  simp [hd]

/-- C3 amended, witness: instantiated on the freshly initialized
(disconnected) state. -/
theorem disconnected_commands_dropped_witness :
    updateAlertStatus initialState "a1" "reviewing" none =
      Except.ok (initialState, []) ∧
    subscribeToCamera initialState "cam_001" =
      Except.ok (initialState, []) := by
  have h := disconnected_commands_dropped initialState emptyPatch "a1"
    "reviewing" "cam_001" none rfl
  exact ⟨h.2.1, h.2.2.1⟩

/-- C2: an authoritative `alert_updated` record with id `X` replaces every
stored Alert with id `X` wholesale — the stored entry becomes exactly the
pushed record, never a field-by-field merge — while every Alert whose id
is not `X` is left unchanged, and the store's length is preserved. -/
theorem alert_updated_wholesale_replace (s : ClientState) (u : Alert) :
    (handleAlertUpdated s u).alerts.length = s.alerts.length ∧
    ∀ i (h : i < s.alerts.length),
      (s.alerts[i].id = u.id →
        (handleAlertUpdated s u).alerts[i]? = some u) ∧
      (s.alerts[i].id ≠ u.id →
        (handleAlertUpdated s u).alerts[i]? = some s.alerts[i]) := by
  refine ⟨by simp [handleAlertUpdated], ?_⟩
  intro i h
  constructor
  · intro hid
    simp [handleAlertUpdated, List.getElem?_map,
      List.getElem?_eq_getElem h, hid]
  · intro hid
    simp [handleAlertUpdated, List.getElem?_map,
      List.getElem?_eq_getElem h, hid]

/-- C2 witness: on a two-alert store, pushing a record with `alertA`'s id
replaces slot 0 wholesale and leaves slot 1 untouched. -/
theorem alert_updated_wholesale_replace_witness :
    (handleAlertUpdated twoAlertState alertAv2).alerts.length = 2 ∧
    (handleAlertUpdated twoAlertState alertAv2).alerts[0]? = some alertAv2 ∧
    (handleAlertUpdated twoAlertState alertAv2).alerts[1]? = some alertB := by
  have h := alert_updated_wholesale_replace twoAlertState alertAv2
  refine ⟨by rw [h.1]; rfl, ?_, ?_⟩
  · exact (h.2 0 (by simp [twoAlertState, initialState])).1 (by decide)
  · have := (h.2 1 (by simp [twoAlertState, initialState])).2 (by decide)
    simpa using this

/-- C4 counterexample: a detection payload supplying `severity = "urgent"`
and `confidence = 2` is accepted unvalidated — the produced Alert's
severity is outside the closed enumeration and its confidence exceeds 1
(its status is still `pending`). -/
theorem invalid_fields_propagated :
    isValidSeverity (mapAlertPayload badPayload "f1" "n1").severity =
      false ∧
    ¬ (mapAlertPayload badPayload "f1" "n1").confidence ≤ 1 ∧
    (mapAlertPayload badPayload "f1" "n1").status = "pending" := by
  refine ⟨by decide, by decide, rfl⟩

/-- C4 amended: every Alert produced by the two alert-creating handlers
has `status = pending`; its severity lies in `{low,medium,high,critical}`
and its confidence in `[0,1]` provided the payload's optional `severity` /
`confidence` fields are absent, falsy-empty, or already valid — the
handlers copy producer-supplied values without validation, so validity is
conditional on the producer, while the wearable handler's fixed values are
unconditionally valid. -/
theorem normalizer_validity (p : AlertPayload) (freshId now : String)
    (hs : sevFieldOk (p.details.getD emptyDetails))
    (hc : confFieldOk (p.details.getD emptyDetails)) :
    (mapAlertPayload p freshId now).status = "pending" ∧
    isValidSeverity (mapAlertPayload p freshId now).severity = true ∧
    0 ≤ (mapAlertPayload p freshId now).confidence ∧
    (mapAlertPayload p freshId now).confidence ≤ 1 ∧
    ∀ (q : ViolencePayload) (fid2 now2 : String),
      (mapViolencePayload q fid2 now2).status = "pending" ∧
      isValidSeverity (mapViolencePayload q fid2 now2).severity = true ∧
      0 ≤ (mapViolencePayload q fid2 now2).confidence ∧
      (mapViolencePayload q fid2 now2).confidence ≤ 1 := by
  have hsev : isValidSeverity (mapAlertPayload p freshId now).severity =
      true := by
    rcases hv : (p.details.getD emptyDetails).severity with _ | sv
    · simp [mapAlertPayload, jsOrStr, hv, isValidSeverity]
    · rcases hs sv hv with h | h
      · simp [mapAlertPayload, jsOrStr, hv, h, isValidSeverity]
      · by_cases he : sv = ""
        · simp [mapAlertPayload, jsOrStr, hv, he, isValidSeverity]
        · simpa [mapAlertPayload, jsOrStr, hv, he] using h
  have hcb : 0 ≤ (mapAlertPayload p freshId now).confidence ∧
      (mapAlertPayload p freshId now).confidence ≤ 1 := by
    rcases hv : (p.details.getD emptyDetails).confidence with _ | c
    · constructor <;> simp [mapAlertPayload, hv] <;> norm_num
    · have := hc c hv
      constructor <;> simp [mapAlertPayload, hv] <;>
        [exact this.1; exact this.2]
  refine ⟨rfl, hsev, hcb.1, hcb.2, fun q fid2 now2 => ⟨rfl, ?_, ?_, ?_⟩⟩
  · show isValidSeverity "high" = true
    decide
  · show (0 : ℚ) ≤ 9/10
    norm_num
  · show (9/10 : ℚ) ≤ 1
    norm_num

/-- C4 amended, witness: instantiated on the fully-defaulted payload,
whose severity and confidence details are absent. -/
theorem normalizer_validity_witness :
    (mapAlertPayload defaultedPayload "f2" "n2").status = "pending" ∧
    isValidSeverity (mapAlertPayload defaultedPayload "f2" "n2").severity =
      true ∧
    0 ≤ (mapAlertPayload defaultedPayload "f2" "n2").confidence ∧
    (mapAlertPayload defaultedPayload "f2" "n2").confidence ≤ 1 := by
  have h := normalizer_validity defaultedPayload "f2" "n2"
    (fun sv hsv => by simp [defaultedPayload, emptyDetails] at hsv)
    (fun c hcv => by simp [defaultedPayload, emptyDetails] at hcv)
  exact ⟨h.1, h.2.1, h.2.2.1, h.2.2.2.1⟩

/-- C6 counterexample: a store whose only Alert is terminal (`resolved`)
is regressed to the non-terminal `pending` by an `alert_updated` push with
the same id — no authoritative-reset flag exists or is required. -/
theorem terminal_status_regressed :
    isTerminal alertResolved.status = true ∧
    isTerminal alertRegressed.status = false ∧
    (handleAlertUpdated resolvedState alertRegressed).alerts =
      [alertRegressed] := by
  refine ⟨rfl, rfl, ?_⟩
  simp [handleAlertUpdated, resolvedState, initialState, alertResolved,
    alertRegressed, alertA]

/-- C6 amended: `review`/`dispatch` calls (`updateAlertStatus`) never
mutate any Alert's status — the state is returned unchanged — but an
`alert_updated` replacement always overwrites the stored record with the
pushed one, even when the stored status is terminal and the incoming one
is not; no authoritative-reset flag is consulted. -/
theorem terminal_not_protected (s : ClientState) (alertId status : String)
    (assignedTo : Option String) (u : Alert) (i : ℕ)
    (h : i < s.alerts.length)
    (hid : s.alerts[i].id = u.id)
    (hterm : isTerminal s.alerts[i].status = true) :
    (∃ em, updateAlertStatus s alertId status assignedTo =
      Except.ok (s, em)) ∧
    (handleAlertUpdated s u).alerts[i]? = some u := by
  constructor
  · unfold updateAlertStatus
    by_cases hb : (s.hasSocket && s.connected) = true <;> simp [hb]
  · simp [handleAlertUpdated, List.getElem?_map,
      List.getElem?_eq_getElem h, hid]

/-- C6 amended, witness: the resolved store overwritten by a pending
record with the same id. -/
theorem terminal_not_protected_witness :
    (∃ em, updateAlertStatus resolvedState "a1" "resolved" none =
      Except.ok (resolvedState, em)) ∧
    (handleAlertUpdated resolvedState alertRegressed).alerts[0]? =
      some alertRegressed := by
  exact terminal_not_protected resolvedState "a1" "resolved" none
    alertRegressed 0 (by simp [resolvedState, initialState]) (by decide)
    (by decide)

/-- An `alert_updated` replacement never changes the multiset of ids: the
entry replaced shares the incoming record's id, all others keep theirs. -/
theorem alertIds_handleAlertUpdated (s : ClientState) (u : Alert) :
    alertIds (handleAlertUpdated s u) = alertIds s := by
  simp only [alertIds, handleAlertUpdated, List.map_map]
  apply List.map_congr_left
  intro a _
  simp only [Function.comp_apply]
  split
  · next heq => exact heq.symm
  · rfl

/-- C9 counterexample: two `new_alert` pushes carrying the same record
reach, from the initial state, a store holding two entries with the same
id — insertion is plain prepending, not insert-or-replace by id. -/
theorem duplicate_ids_reachable :
    (runEvents initialState
      [InEvent.newAlertEvt alertB, InEvent.newAlertEvt alertB]).alerts.length
      = 2 ∧
    ¬ (alertIds (runEvents initialState
      [InEvent.newAlertEvt alertB, InEvent.newAlertEvt alertB])).Nodup := by
  refine ⟨rfl, by decide⟩

/-- C9 amended: every insertion is a plain prepend, so distinctness of
ids is preserved by an inbound event only under the freshness assumption
that the inserted id (locally generated or server-pushed) is not already
present; all non-inserting events, including `alert_updated`, preserve
the stored ids exactly. -/
theorem fresh_inserts_preserve_nodup (s : ClientState) (e : InEvent)
    (hnd : (alertIds s).Nodup)
    (hfresh : ∀ i, insertedId e = some i → i ∉ alertIds s) :
    (alertIds (applyEvent s e)).Nodup := by
  cases e with
  | alertEvt p fid now =>
      show ((mapAlertPayload p fid now).id :: alertIds s).Nodup
      exact List.nodup_cons.mpr ⟨hfresh fid rfl, hnd⟩
  | touristViolenceEvt p fid now =>
      show ((mapViolencePayload p fid now).id :: alertIds s).Nodup
      exact List.nodup_cons.mpr ⟨hfresh fid rfl, hnd⟩
  | newAlertEvt a =>
      show (a.id :: alertIds s).Nodup
      exact List.nodup_cons.mpr ⟨hfresh a.id rfl, hnd⟩
  | alertUpdatedEvt u =>
      show (alertIds (handleAlertUpdated s u)).Nodup
      rw [alertIds_handleAlertUpdated]; exact hnd
  | connectEvt => exact hnd
  | disconnectEvt => exact hnd
  | locationBatchEvt ls => exact hnd
  | statusBatchEvt st => exact hnd
  | iotBandEvt => exact hnd

/-- C9 amended, witness: a fresh server record appended to the one-alert
store keeps the ids distinct. -/
theorem fresh_inserts_preserve_nodup_witness :
    (alertIds (applyEvent connectedPendingState
      (InEvent.newAlertEvt alertB))).Nodup := by
  exact fresh_inserts_preserve_nodup connectedPendingState
    (InEvent.newAlertEvt alertB) (by decide)
    (by intro i hi; injection hi with hi; subst hi; decide)

end SafeYatri
